import Mathlib

/-!
# Image data source of the IMS cloud provider

A shallow embedding of `cloud/data_source_image.go` and the properties of
`dataSourceImageRead`, the read function that resolves the selection inputs
`id`, `os`, `code`, `private_image_name` to one image of the public catalog.

Go maps are association lists with pairwise distinct keys; `range` walks them
front to back. Go leaves the iteration order of a map unspecified; here it is
the order of first insertion, so every statement quantified over all fetched
lists covers every order in which the same entries can be visited, and the
section on the order of the fetched catalog shows that the outcome of the read
does not depend on it.
-/

namespace Cloud

/-! ## Go maps -/

/-- Go `map[string]string`: the inner record of one image. The nil map is `[]`. -/
abbrev StrMap := List (String × String)

/-- Go `map[string]map[string]string`: the catalog, keyed by image id. -/
abbrev Images := List (String × StrMap)

/-- Go `m[k]` on a `map[string]string`: the zero value `""` when the key is missing. -/
def StrMap.index (m : StrMap) (k : String) : String :=
  match m with
  | [] => ""
  | (key, v) :: rest => if key = k then v else StrMap.index rest k

/-- Go `v, ok := m[k]` on the catalog: the nil map and `false` when the key is missing. -/
def Images.index (m : Images) (k : String) : StrMap × Bool :=
  match m with
  | [] => ([], false)
  | (key, v) :: rest => if key = k then (v, true) else Images.index rest k

/-- Go `m[k] = v` on the catalog: overwrite the entry of an existing key, add a new one otherwise. -/
def Images.set (m : Images) (k : String) (v : StrMap) : Images :=
  match m with
  | [] => [(k, v)]
  | (key, old) :: rest => if key = k then (k, v) :: rest else (key, old) :: Images.set rest k v

/-! ## The collaborators: decoded JSON, resource data, diagnostics -/

/-- One element of the decoded JSON array returned by the catalog endpoint: an object
whose fields `id`, `os`, `code`, `name` are strings (the type assertions of the source). -/
structure RawImage where
  id : String
  os : String
  code : String
  name : String
deriving DecidableEq, Repr

/-- SDK `schema.ResourceData` of the data source. The first five fields are the attributes
the schema declares, as `d.Get` reads them; `d.Set` writes `os` and `code`. `identity` is the
identity of the resource, `d.Id()`: only `d.SetId` writes it, and `d.SetId` stores the same
value in the attribute `id`. The data of a data source read is built from the configuration
alone, so `identity` is empty before the call whatever the attribute `id` is. -/
structure ResourceData where
  id : String
  datacenter_id : String
  os : String
  code : String
  private_image_name : String
  identity : String
deriving DecidableEq, Repr

/-- SDK `d.SetId(v)`: sets the identity and the attribute `id`. -/
def ResourceData.SetId (d : ResourceData) (v : String) : ResourceData :=
  { d with id := v, identity := v }

/-- SDK `d.Set("code", v)`. -/
def ResourceData.SetCode (d : ResourceData) (v : String) : ResourceData :=
  { d with code := v }

/-- SDK `d.Set("os", v)`. -/
def ResourceData.SetOs (d : ResourceData) (v : String) : ResourceData :=
  { d with os := v }

/-- SDK `diag.Diagnostic`, always of severity error here: its summary. -/
structure Diagnostic where
  summary : String
deriving DecidableEq, Repr

/-- SDK `diag.Diagnostics`; `nil` (success) is the empty list. -/
abbrev Diagnostics := List Diagnostic

/-- SDK `diag.FromErr(err)` for a non-nil error with message `err`. -/
def diagFromErr (err : String) : Diagnostics := [⟨err⟩]

/-- SDK `diag.Errorf` once the format is expanded to `msg`. -/
def diagErrorf (msg : String) : Diagnostics := [⟨msg⟩]

/-- What a call of `dataSourceImageRead` leaves behind: the returned diagnostics, the
resource data after the writes, and the `(method, path)` of every call made to `request`. -/
structure ReadResult where
  diags : Diagnostics
  d : ResourceData
  requests : List (String × String)
deriving DecidableEq, Repr

/-- The collaborator `request(provider, method, path, nil)` for the configured provider:
the decoded JSON array, or the message of the error. -/
abbrev Request := String → String → Except String (List RawImage)

/-! ## The source functions -/

/-- Source `getImageMatchesBy`: ids of the images whose `attr` equals `value`, none for an empty value. -/
def getImageMatchesBy (images : Images) (attr : String) (value : String) : List String :=
  if value = "" then []
  else images.foldl
    (fun matchIDs entry => if entry.2.index attr = value then matchIDs ++ [entry.1] else matchIDs) []

/-- Go `fmt.Sprintf("%-Ns", s)`: pad with spaces on the right up to `width` characters. -/
def padRight (width : Nat) (s : String) : String :=
  s ++ String.mk (List.replicate (width - s.length) ' ')

/-- Go `fmt.Sprintf("%-10s %-30s %s", a, b, c)`. -/
def formatRow (a b c : String) : String :=
  padRight 10 a ++ " " ++ padRight 30 b ++ " " ++ c

/-- Source `getAvailableImages`: the header row, then one row for each catalog entry. -/
def getAvailableImages (images : Images) : String :=
  let availableImages : List String := [] ++ [formatRow "os" "code" "name"]
  let availableImages := images.foldl
    (fun rows entry => rows ++ [formatRow
      ("\"" ++ entry.2.index "os" ++ "\"")
      ("\"" ++ entry.2.index "code" ++ "\"")
      ("\"" ++ entry.2.index "name" ++ "\"")]) availableImages
  "\n".intercalate availableImages

/-- The request path of `dataSourceImageRead`:
`fmt.Sprintf("service/server?images=1&datacenter=%s", datacenterId)`. -/
def imagesPath (datacenterId : String) : String :=
  "service/server?images=1&datacenter=" ++ datacenterId

/-- The loop of `dataSourceImageRead` that builds the catalog from the decoded response. -/
def buildImages (result : List RawImage) : Images :=
  result.foldl
    (fun images image =>
      Images.set images image.id [("os", image.os), ("code", image.code), ("name", image.name)]) []

/-- The message of the failure of the last branch of `dataSourceImageRead`. -/
def notFoundMessage (images : Images) : String :=
  "could not find matching image, available public images: \n" ++ getAvailableImages images ++
    "\n\n" ++
    "Private images are not listed, see the following link for details: https://docs.cloud.ims-network.net"

/-- The message of the failure when a private image name comes with `os` or `code`. -/
def conflictMessage : String :=
  "When specifying private_image_name, other attributes must not be set"

/-- Source `dataSourceImageRead`. `xs.getD 0 ""` is Go `xs[0]`; each use is guarded by
`len(xs) == 1` as in the source, so the default is never read. -/
def dataSourceImageRead (request : Request) (d : ResourceData) : ReadResult :=
  let id := d.id
  let datacenterId := d.datacenter_id
  let os := d.os
  let code := d.code
  let privateImageName := d.private_image_name
  if privateImageName = "" then
    let path := imagesPath datacenterId
    match request "GET" path with
    | .error err => ⟨diagFromErr err, d.SetId "", [("GET", path)]⟩
    | .ok result =>
      let images := buildImages result
      let image := (images.index id).1
      let hasImage := (images.index id).2
      let osImageIds := getImageMatchesBy images "os" os
      let codeImageIds := getImageMatchesBy images "code" code
      if hasImage = true ∧
          (osImageIds.length = 0 ∨
            (osImageIds.length = 1 ∧ osImageIds.getD 0 "" = image.index "id" ∧ image.index "os" = os)) ∧
          (codeImageIds.length = 0 ∨
            (codeImageIds.length = 1 ∧ codeImageIds.getD 0 "" = image.index "id" ∧
              image.index "code" = code)) then
        ⟨[], ((d.SetId (image.index "id")).SetCode (image.index "code")).SetOs (image.index "os"),
          [("GET", path)]⟩
      else if osImageIds.length = 1 ∧
          (hasImage = false ∨ image.index "os" = os) ∧
          (codeImageIds.length = 0 ∨
            (codeImageIds.length = 1 ∧ codeImageIds.getD 0 "" = osImageIds.getD 0 "")) then
        ⟨[], ((d.SetId (osImageIds.getD 0 "")).SetCode
            ((images.index (osImageIds.getD 0 "")).1.index "code")).SetOs os,
          [("GET", path)]⟩
      else if codeImageIds.length = 1 ∧
          (hasImage = false ∨ image.index "code" = code) then
        ⟨[], ((d.SetId (codeImageIds.getD 0 "")).SetCode code).SetOs
            ((images.index (codeImageIds.getD 0 "")).1.index "os"),
          [("GET", path)]⟩
      else
        ⟨diagErrorf (notFoundMessage images), (((d.SetId "").SetCode "").SetOs ""), [("GET", path)]⟩
  else
    if code ≠ "" ∨ os ≠ "" then
      ⟨diagErrorf conflictMessage, d, []⟩
    else
      ⟨[], d.SetId privateImageName, []⟩

/-- The number of catalog entries whose `attr` equals `value` (the size of the spec's
`byOs` and `byCode` sets for a non-empty value). -/
def matchCount (images : Images) (attr : String) (value : String) : Nat :=
  (images.filter (fun entry => decide (entry.2.index attr = value))).length

/-- One value in double quotes, as the listing shows it. -/
def doubleQuoted (s : String) : String := "\"" ++ s ++ "\""

/-- The rows of the listing as the specification words them: the header row of the three
column titles, then for each catalog entry its double-quoted os left-justified to width 10,
a space, its double-quoted code left-justified to width 30, a space, its double-quoted name. -/
def listingRows (images : Images) : List String :=
  "os         code                           name" ::
    images.map (fun entry =>
      padRight 10 (doubleQuoted (entry.2.index "os")) ++ " " ++
        padRight 30 (doubleQuoted (entry.2.index "code")) ++ " " ++
        doubleQuoted (entry.2.index "name"))

/-! ## Sample data -/

/-- The two-entry catalog of the examples: `A` is ubuntu/u1, `B` is debian/d1. -/
def sampleCatalog : List RawImage :=
  [⟨"A", "ubuntu", "u1", "Ubuntu Server"⟩, ⟨"B", "debian", "d1", "Debian"⟩]

/-- A collaborator that answers every request with the sample catalog. -/
def sampleRequest : Request := fun _ _ => .ok sampleCatalog

/-- A collaborator whose every request fails. -/
def failingRequest : Request := fun _ _ => .error "connection refused"

/-- A catalog in which `A` and `C` share the os `ubuntu`. -/
def sharedOsCatalog : List RawImage :=
  [⟨"A", "ubuntu", "u1", "Ubuntu Server"⟩, ⟨"B", "debian", "d1", "Debian"⟩,
    ⟨"C", "ubuntu", "u2", "Ubuntu Desktop"⟩]

/-- A collaborator that answers every request with `sharedOsCatalog`. -/
def sharedOsRequest : Request := fun _ _ => .ok sharedOsCatalog

/-- A catalog whose only entry is keyed by the empty id. -/
def emptyIdCatalog : List RawImage := [⟨"", "ubuntu", "u1", "Ubuntu Server"⟩]

/-- A collaborator that answers every request with `emptyIdCatalog`. -/
def emptyIdRequest : Request := fun _ _ => .ok emptyIdCatalog

/-- The sample catalog fetched in the other order. -/
def swappedCatalog : List RawImage :=
  [⟨"B", "debian", "d1", "Debian"⟩, ⟨"A", "ubuntu", "u1", "Ubuntu Server"⟩]

/-- A collaborator that answers every request with `swappedCatalog`. -/
def swappedRequest : Request := fun _ _ => .ok swappedCatalog

/-- Input with the given `id`, `os`, `code` and `private_image_name` in datacenter `dc1`, as
a data source read receives it: no identity is stored yet. -/
def sampleInput (id os code privateImageName : String) : ResourceData :=
  ⟨id, "dc1", os, code, privateImageName, ""⟩

/-! ## Facts about the helpers -/

theorem foldl_matches_eq (attr value : String) (images : Images) (acc : List String) :
    images.foldl
      (fun matchIDs entry => if entry.2.index attr = value then matchIDs ++ [entry.1] else matchIDs) acc
      = acc ++ (images.filter (fun entry => decide (entry.2.index attr = value))).map Prod.fst := by
  induction images generalizing acc with
  | nil => simp
  | cons e rest ih =>
    simp only [List.foldl_cons, ih, List.filter_cons]
    by_cases h : e.2.index attr = value <;> simp [h]

theorem getImageMatchesBy_empty (images : Images) (attr : String) :
    getImageMatchesBy images attr "" = [] := by
  simp [getImageMatchesBy]

theorem getImageMatchesBy_eq_filter (images : Images) (attr value : String) (hv : value ≠ "") :
    getImageMatchesBy images attr value
      = (images.filter (fun entry => decide (entry.2.index attr = value))).map Prod.fst := by
  simp [getImageMatchesBy, hv, foldl_matches_eq]

theorem getImageMatchesBy_length (images : Images) (attr value : String) (hv : value ≠ "") :
    (getImageMatchesBy images attr value).length = matchCount images attr value := by
  simp [getImageMatchesBy_eq_filter images attr value hv, matchCount]

theorem index_true_mem (images : Images) (k : String) (v : StrMap)
    (h : images.index k = (v, true)) : (k, v) ∈ images := by
  induction images with
  | nil => simp [Images.index] at h
  | cons e rest ih =>
    obtain ⟨key, old⟩ := e
    by_cases hk : key = k
    · simp [Images.index, hk] at h
      simp [hk, h]
    · simp only [Images.index, hk, if_false] at h
      exact List.mem_cons_of_mem _ (ih h)

theorem index_set (m : Images) (k : String) (v : StrMap) (k2 : String) :
    (Images.set m k v).index k2 = if k = k2 then (v, true) else m.index k2 := by
  induction m with
  | nil => simp [Images.set, Images.index]
  | cons e rest ih =>
    obtain ⟨key, old⟩ := e
    by_cases hk : key = k
    · subst hk
      by_cases h2 : key = k2 <;> simp [Images.set, Images.index, h2]
    · by_cases h2 : key = k2
      · subst h2
        simp [Images.set, Images.index, hk, Ne.symm hk]
      · simp [Images.set, Images.index, hk, h2, ih]

theorem buildImages_append (result : List RawImage) (image : RawImage) :
    buildImages (result ++ [image])
      = Images.set (buildImages result) image.id
          [("os", image.os), ("code", image.code), ("name", image.name)] := by
  simp [buildImages, List.foldl_append]

/-- The catalog has a key exactly for the ids that occur in the fetched list. -/
theorem buildImages_index_true_iff (result : List RawImage) (k : String) :
    ((buildImages result).index k).2 = true ↔ ∃ image ∈ result, image.id = k := by
  induction result using List.reverseRecOn with
  | nil => simp [buildImages, Images.index]
  | append_singleton rest image ih =>
    rw [buildImages_append, index_set]
    by_cases h : image.id = k
    · simp only [h, if_true, true_iff]
      exact ⟨image, by simp, h⟩
    · simp only [h, if_false, ih, List.mem_append, List.mem_singleton]
      constructor
      · rintro ⟨x, hx, hxk⟩
        exact ⟨x, Or.inl hx, hxk⟩
      · rintro ⟨x, hx | hx, hxk⟩
        · exact ⟨x, hx, hxk⟩
        · exact absurd (hx ▸ hxk) h

/-- No record of the catalog has an `id` field: the loop stores `os`, `code` and `name` only. -/
theorem buildImages_index_id (result : List RawImage) (k : String) :
    ((buildImages result).index k).1.index "id" = "" := by
  induction result using List.reverseRecOn with
  | nil => simp [buildImages, Images.index, StrMap.index]
  | append_singleton rest image ih =>
    rw [buildImages_append, index_set]
    by_cases h : image.id = k
    · simp [h, StrMap.index]
    · simpa [h] using ih

theorem getImageMatchesBy_singleton (images : Images) (attr value E : String) (img : StrMap)
    (hv : value ≠ "") (hone : matchCount images attr value = 1)
    (hE : images.index E = (img, true)) (hEv : img.index attr = value) :
    getImageMatchesBy images attr value = [E] := by
  rw [getImageMatchesBy_eq_filter images attr value hv]
  unfold matchCount at hone
  obtain ⟨x, hx⟩ := List.length_eq_one.mp hone
  have hmem : (E, img) ∈ images.filter (fun entry => decide (entry.2.index attr = value)) := by
    rw [List.mem_filter]
    exact ⟨index_true_mem images E img hE, by simpa using hEv⟩
  rw [hx] at hmem ⊢
  rw [List.mem_singleton] at hmem
  simp [← hmem]

/-- With an id that is a key of the catalog and no os or code, the identity written is the
`id` field of the stored record, which is always empty. -/
theorem id_lookup_identity_empty (request : Request) (d : ResourceData)
    (result : List RawImage) (img : StrMap)
    (hp : d.private_image_name = "")
    (hr : request "GET" (imagesPath d.datacenter_id) = .ok result)
    (ho : d.os = "") (hc : d.code = "")
    (hA : (buildImages result).index d.id = (img, true)) :
    (dataSourceImageRead request d).diags = [] ∧ (dataSourceImageRead request d).d.id = "" ∧
    (dataSourceImageRead request d).d.identity = "" := by
  have hid := buildImages_index_id result d.id
  rw [hA] at hid
  unfold dataSourceImageRead
  simp only [hp, if_true, hr, hA, ho, hc, getImageMatchesBy_empty]
  simp [ResourceData.SetOs, ResourceData.SetCode, ResourceData.SetId]
  exact hid

/-- Claim C1 fails as stated: with no id, no entry has both the requested os and the
requested code, yet the read succeeds. On the sample catalog, os `ubuntu` with code `d1`
resolves to `B` through the code filter; os `ubuntu` with the unknown code `zz` resolves to
`A` through the os filter; and with an entry keyed by the empty id, an os and code that
nothing matches still return no error. -/
theorem cross_match_resolves :
    ((∀ e ∈ buildImages sampleCatalog,
        ¬ (e.2.index "os" = "ubuntu" ∧ e.2.index "code" = "d1")) ∧
      dataSourceImageRead sampleRequest (sampleInput "" "ubuntu" "d1" "")
        = ⟨[], ⟨"B", "dc1", "debian", "d1", "", "B"⟩, [("GET", imagesPath "dc1")]⟩) ∧
    ((∀ e ∈ buildImages sampleCatalog,
        ¬ (e.2.index "os" = "ubuntu" ∧ e.2.index "code" = "zz")) ∧
      dataSourceImageRead sampleRequest (sampleInput "" "ubuntu" "zz" "")
        = ⟨[], ⟨"A", "dc1", "ubuntu", "u1", "", "A"⟩, [("GET", imagesPath "dc1")]⟩) ∧
    ((∀ e ∈ buildImages emptyIdCatalog,
        ¬ (e.2.index "os" = "fedora" ∧ e.2.index "code" = "zz")) ∧
      (dataSourceImageRead emptyIdRequest (sampleInput "" "fedora" "zz" "")).diags = []) := by
  decide

/-- Claim C1, amended: for a fetched catalog with no entry keyed by the empty id and a public
lookup without id whose os and code are both non-empty, when no single entry has both that os
and that code, the read fails with the not-found error and clears id, os and code exactly when
the requested code is not matched by exactly one entry and it is not the case that the os is
matched by exactly one entry while the code is matched by none; otherwise it returns no
error. -/
theorem cross_match_fails_iff (request : Request) (d : ResourceData) (result : List RawImage)
    (hp : d.private_image_name = "")
    (hr : request "GET" (imagesPath d.datacenter_id) = .ok result)
    (hid : d.id = "") (hnokey : ((buildImages result).index "").2 = false)
    (hos : d.os ≠ "") (hcode : d.code ≠ "")
    (_hnone : ∀ e ∈ buildImages result,
      ¬ (e.2.index "os" = d.os ∧ e.2.index "code" = d.code)) :
    (((dataSourceImageRead request d).diags = diagErrorf (notFoundMessage (buildImages result)) ∧
        (dataSourceImageRead request d).d = ((d.SetId "").SetCode "").SetOs "")
      ↔ (matchCount (buildImages result) "code" d.code ≠ 1 ∧
          ¬ (matchCount (buildImages result) "os" d.os = 1 ∧
              matchCount (buildImages result) "code" d.code = 0))) ∧
    (¬ (matchCount (buildImages result) "code" d.code ≠ 1 ∧
          ¬ (matchCount (buildImages result) "os" d.os = 1 ∧
              matchCount (buildImages result) "code" d.code = 0)) →
      (dataSourceImageRead request d).diags = []) := by
  have hlo := getImageMatchesBy_length (buildImages result) "os" d.os hos
  have hlc := getImageMatchesBy_length (buildImages result) "code" d.code hcode
  rw [← hlo, ← hlc]
  unfold dataSourceImageRead
  simp only [hp, if_true, hr, hid, hnokey, Bool.false_eq_true, false_and, if_false, true_or,
    true_and, and_true]
  by_cases hC : (getImageMatchesBy (buildImages result) "code" d.code).length = 1
  · split <;> simp [hC, diagErrorf]
  · by_cases hB : (getImageMatchesBy (buildImages result) "os" d.os).length = 1 ∧
        (getImageMatchesBy (buildImages result) "code" d.code).length = 0
    · simp [hB.1, hB.2, diagErrorf]
    · have hB2 : ¬ ((getImageMatchesBy (buildImages result) "os" d.os).length = 1 ∧
          ((getImageMatchesBy (buildImages result) "code" d.code).length = 0 ∨
            ((getImageMatchesBy (buildImages result) "code" d.code).length = 1 ∧
              (getImageMatchesBy (buildImages result) "code" d.code).getD 0 ""
                = (getImageMatchesBy (buildImages result) "os" d.os).getD 0 ""))) := by
        rintro ⟨h1, h2 | h2⟩
        · exact hB ⟨h1, h2⟩
        · exact hC h2.1
      rw [if_neg hB2, if_neg hC]
      simp only [true_and]
      exact ⟨⟨fun _ => ⟨hC, hB⟩, fun _ => trivial⟩, fun h => absurd ⟨hC, hB⟩ h⟩

/-- Witness of C1 amended, both sides. In the catalog where two entries share os `ubuntu`
and none has code `d2`, the lookup for `ubuntu`/`d2` fails with the not-found error and clears
id, os and code. In the sample catalog no entry has both os `ubuntu` and code `d1`, exactly
one has code `d1`, and the lookup for `ubuntu`/`d1` returns no error. -/
theorem cross_match_fails_iff_witness :
    (((buildImages sharedOsCatalog).index "").2 = false ∧
      (∀ e ∈ buildImages sharedOsCatalog,
        ¬ (e.2.index "os" = "ubuntu" ∧ e.2.index "code" = "d2")) ∧
      matchCount (buildImages sharedOsCatalog) "os" "ubuntu" = 2 ∧
      matchCount (buildImages sharedOsCatalog) "code" "d2" = 0 ∧
      (dataSourceImageRead sharedOsRequest (sampleInput "" "ubuntu" "d2" "")).diags
        = diagErrorf (notFoundMessage (buildImages sharedOsCatalog)) ∧
      (dataSourceImageRead sharedOsRequest (sampleInput "" "ubuntu" "d2" "")).d
        = sampleInput "" "" "" "") ∧
    (((buildImages sampleCatalog).index "").2 = false ∧
      (∀ e ∈ buildImages sampleCatalog,
        ¬ (e.2.index "os" = "ubuntu" ∧ e.2.index "code" = "d1")) ∧
      matchCount (buildImages sampleCatalog) "code" "d1" = 1 ∧
      (dataSourceImageRead sampleRequest (sampleInput "" "ubuntu" "d1" "")).diags = []) :=
  ⟨⟨by decide, by decide, by decide, by decide,
      (cross_match_fails_iff sharedOsRequest (sampleInput "" "ubuntu" "d2" "") sharedOsCatalog
        rfl rfl rfl (by decide) (by decide) (by decide) (by decide)).1.mpr (by decide)⟩,
    ⟨by decide, by decide, by decide,
      (cross_match_fails_iff sampleRequest (sampleInput "" "ubuntu" "d1" "") sampleCatalog
        rfl rfl rfl (by decide) (by decide) (by decide) (by decide)).2 (by decide)⟩⟩

/-! ## An id with an os that nothing matches (C2) -/

/-- Claim C2 fails as stated: `A` is in the sample catalog with os `ubuntu`, no entry has os
`fedora`, and the lookup with id `A` and os `fedora` returns no error and writes the os and
code stored for `A`. -/
theorem id_with_unmatched_os_succeeds :
    (buildImages sampleCatalog).index "A"
      = ([("os", "ubuntu"), ("code", "u1"), ("name", "Ubuntu Server")], true) ∧
    matchCount (buildImages sampleCatalog) "os" "fedora" = 0 ∧
    (dataSourceImageRead sampleRequest (sampleInput "A" "fedora" "" "")).diags = [] ∧
    (dataSourceImageRead sampleRequest (sampleInput "A" "fedora" "" "")).d.os = "ubuntu" ∧
    (dataSourceImageRead sampleRequest (sampleInput "A" "fedora" "" "")).d.code = "u1" := by
  decide

/-- Claim C2, amended: for a fetched catalog with an entry keyed by the supplied id, an empty
code and a non-empty requested os that differs from the entry's os and that no catalog entry
has, the read returns no error and writes the os and code stored for that entry: an os filter
that matches nothing does not block the id confirmation. -/
theorem id_confirmed_when_os_unmatched (request : Request) (d : ResourceData)
    (result : List RawImage) (img : StrMap)
    (hp : d.private_image_name = "")
    (hr : request "GET" (imagesPath d.datacenter_id) = .ok result)
    (hc : d.code = "") (hos : d.os ≠ "")
    (hA : (buildImages result).index d.id = (img, true))
    (_hdiff : img.index "os" ≠ d.os)
    (hnone : matchCount (buildImages result) "os" d.os = 0) :
    (dataSourceImageRead request d).diags = [] ∧
    (dataSourceImageRead request d).d.os = img.index "os" ∧
    (dataSourceImageRead request d).d.code = img.index "code" := by
  have hlen := getImageMatchesBy_length (buildImages result) "os" d.os hos
  rw [hnone] at hlen
  unfold dataSourceImageRead
  simp only [hp, if_true, hr, hA, hc, getImageMatchesBy_empty, hlen, List.length_nil, true_or,
    and_true]
  simp [ResourceData.SetOs, ResourceData.SetCode, ResourceData.SetId]

/-- Witness of C2 amended on the sample catalog: id `B` (os `debian`) with os `centos`. -/
theorem id_confirmed_when_os_unmatched_witness :
    matchCount (buildImages sampleCatalog) "os" "centos" = 0 ∧
    (dataSourceImageRead sampleRequest (sampleInput "B" "centos" "" "")).diags = [] ∧
    (dataSourceImageRead sampleRequest (sampleInput "B" "centos" "" "")).d.os = "debian" ∧
    (dataSourceImageRead sampleRequest (sampleInput "B" "centos" "" "")).d.code = "d1" :=
  ⟨by decide,
    id_confirmed_when_os_unmatched sampleRequest (sampleInput "B" "centos" "" "") sampleCatalog
      [("os", "debian"), ("code", "d1"), ("name", "Debian")]
      rfl rfl rfl (by decide) (by decide) (by decide) (by decide)⟩

/-! ## Lookup by id alone (C3, C4) -/

/-- Claim C3 at a concrete input: the sample catalog has the key `A` and the lookup with id `A`
and no os, code or private image name returns no error, but the identity written by `SetId`
is the empty string and not `A`: the record stored for `A` has no `id` field. -/
theorem id_lookup_writes_empty_identity :
    ((buildImages sampleCatalog).index "A").2 = true ∧
    (dataSourceImageRead sampleRequest (sampleInput "A" "" "" "")).diags = [] ∧
    (dataSourceImageRead sampleRequest (sampleInput "A" "" "" "")).d.id = "" ∧
    (dataSourceImageRead sampleRequest (sampleInput "A" "" "" "")).d.id ≠ "A" ∧
    (dataSourceImageRead sampleRequest (sampleInput "A" "" "" "")).d.identity = "" ∧
    (dataSourceImageRead sampleRequest (sampleInput "A" "" "" "")).d.identity ≠ "A" := by
  decide

/-- Claim C4: for every fetched catalog with an entry keyed by the supplied id, and os, code
and private image name all empty, the read returns no error and writes exactly the os and
code stored for that entry. -/
theorem id_lookup_writes_stored_os_code (request : Request) (d : ResourceData)
    (result : List RawImage) (img : StrMap)
    (hp : d.private_image_name = "")
    (hr : request "GET" (imagesPath d.datacenter_id) = .ok result)
    (ho : d.os = "") (hc : d.code = "")
    (hA : (buildImages result).index d.id = (img, true)) :
    (dataSourceImageRead request d).diags = [] ∧
    (dataSourceImageRead request d).d.os = img.index "os" ∧
    (dataSourceImageRead request d).d.code = img.index "code" := by
  unfold dataSourceImageRead
  simp only [hp, if_true, hr, hA, ho, hc, getImageMatchesBy_empty]
  simp [ResourceData.SetOs, ResourceData.SetCode, ResourceData.SetId]

/-- Witness of C4 on the sample catalog: id `B` writes os `debian` and code `d1`. -/
theorem id_lookup_writes_stored_os_code_witness :
    (dataSourceImageRead sampleRequest (sampleInput "B" "" "" "")).diags = [] ∧
    (dataSourceImageRead sampleRequest (sampleInput "B" "" "" "")).d.os = "debian" ∧
    (dataSourceImageRead sampleRequest (sampleInput "B" "" "" "")).d.code = "d1" :=
  id_lookup_writes_stored_os_code sampleRequest (sampleInput "B" "" "" "") sampleCatalog
    [("os", "debian"), ("code", "d1"), ("name", "Debian")] rfl rfl rfl rfl (by decide)

/-! ## Private images (C5, C6) -/

/-- Claim C5: with a non-empty private image name and empty os and code, the read returns no
error, sets the identity to the private image name, makes no request, and gives the same
result whatever the collaborator would answer. -/
theorem private_image_resolves (request : Request) (d : ResourceData)
    (hp : d.private_image_name ≠ "") (ho : d.os = "") (hc : d.code = "") :
    dataSourceImageRead request d = ⟨[], d.SetId d.private_image_name, []⟩ ∧
    (dataSourceImageRead request d).d.id = d.private_image_name ∧
    (dataSourceImageRead request d).d.identity = d.private_image_name ∧
    ∀ other : Request, dataSourceImageRead other d = dataSourceImageRead request d := by
  have h : ∀ r : Request, dataSourceImageRead r d = ⟨[], d.SetId d.private_image_name, []⟩ := by
    intro r
    simp [dataSourceImageRead, hp, ho, hc]
  refine ⟨h request, ?_, ?_, fun other => ?_⟩
  · rw [h request]
    rfl
  · rw [h request]
    rfl
  · rw [h other, h request]

/-- Witness of C5: the private image `my-image`, with a collaborator that would fail. -/
theorem private_image_resolves_witness :
    dataSourceImageRead failingRequest (sampleInput "" "" "" "my-image")
      = ⟨[], ⟨"my-image", "dc1", "", "", "my-image", "my-image"⟩, []⟩ ∧
    (dataSourceImageRead failingRequest (sampleInput "" "" "" "my-image")).d.id = "my-image" ∧
    (dataSourceImageRead failingRequest (sampleInput "" "" "" "my-image")).d.identity
      = "my-image" ∧
    ∀ other : Request, dataSourceImageRead other (sampleInput "" "" "" "my-image")
      = dataSourceImageRead failingRequest (sampleInput "" "" "" "my-image") :=
  private_image_resolves failingRequest (sampleInput "" "" "" "my-image") (by decide) rfl rfl

/-- Claim C6: with a non-empty private image name and a non-empty os or code, the read fails
with the conflicting-inputs error, writes nothing to the resource data and makes no request. -/
theorem private_image_conflict (request : Request) (d : ResourceData)
    (hp : d.private_image_name ≠ "") (h : d.os ≠ "" ∨ d.code ≠ "") :
    (dataSourceImageRead request d).diags
      = [⟨"When specifying private_image_name, other attributes must not be set"⟩] ∧
    (dataSourceImageRead request d).d = d ∧
    (dataSourceImageRead request d).requests = [] := by
  unfold dataSourceImageRead
  simp only [hp, if_false]
  rw [if_pos h.symm]
  exact ⟨rfl, rfl, rfl⟩

/-- Witness of C6: the private image `my-image` together with code `u1`. -/
theorem private_image_conflict_witness :
    (dataSourceImageRead sampleRequest (sampleInput "" "" "u1" "my-image")).diags
      = [⟨"When specifying private_image_name, other attributes must not be set"⟩] ∧
    (dataSourceImageRead sampleRequest (sampleInput "" "" "u1" "my-image")).d
      = sampleInput "" "" "u1" "my-image" ∧
    (dataSourceImageRead sampleRequest (sampleInput "" "" "u1" "my-image")).requests = [] :=
  private_image_conflict sampleRequest (sampleInput "" "" "u1" "my-image") (by decide)
    (Or.inr (by decide))

/-! ## Lookup by os alone (C7, C8) -/

/-- Claim C7: for every fetched catalog with no entry keyed by the empty id in which exactly one
entry `E` has the requested non-empty os, with no id, no code and no private image name, the
read returns no error, sets the identity to `E`, writes the requested os and the code of `E`. -/
theorem os_alone_resolves (request : Request) (d : ResourceData) (result : List RawImage)
    (E : String) (img : StrMap)
    (hp : d.private_image_name = "")
    (hr : request "GET" (imagesPath d.datacenter_id) = .ok result)
    (hid : d.id = "") (hnokey : ((buildImages result).index "").2 = false)
    (hc : d.code = "") (hos : d.os ≠ "")
    (hE : (buildImages result).index E = (img, true)) (hEos : img.index "os" = d.os)
    (hone : matchCount (buildImages result) "os" d.os = 1) :
    (dataSourceImageRead request d).diags = [] ∧
    (dataSourceImageRead request d).d.id = E ∧
    (dataSourceImageRead request d).d.identity = E ∧
    (dataSourceImageRead request d).d.os = d.os ∧
    (dataSourceImageRead request d).d.code = img.index "code" := by
  have hlist := getImageMatchesBy_singleton (buildImages result) "os" d.os E img hos hone hE hEos
  unfold dataSourceImageRead
  simp only [hp, if_true, hr, hid, hc, getImageMatchesBy_empty, hlist, hnokey]
  simp [ResourceData.SetOs, ResourceData.SetCode, ResourceData.SetId, hE]

/-- Witness of C7: on the sample catalog os `ubuntu` resolves to `A` with code `u1`. -/
theorem os_alone_resolves_witness :
    matchCount (buildImages sampleCatalog) "os" "ubuntu" = 1 ∧
    (dataSourceImageRead sampleRequest (sampleInput "" "ubuntu" "" "")).diags = [] ∧
    (dataSourceImageRead sampleRequest (sampleInput "" "ubuntu" "" "")).d.id = "A" ∧
    (dataSourceImageRead sampleRequest (sampleInput "" "ubuntu" "" "")).d.identity = "A" ∧
    (dataSourceImageRead sampleRequest (sampleInput "" "ubuntu" "" "")).d.os = "ubuntu" ∧
    (dataSourceImageRead sampleRequest (sampleInput "" "ubuntu" "" "")).d.code = "u1" :=
  ⟨by decide,
    os_alone_resolves sampleRequest (sampleInput "" "ubuntu" "" "") sampleCatalog "A"
      [("os", "ubuntu"), ("code", "u1"), ("name", "Ubuntu Server")]
      rfl rfl rfl (by decide) rfl (by decide) (by decide) (by decide) (by decide)⟩

/-- Claim C8: for every fetched catalog in which two or more entries have the requested
non-empty os, with no id, no code and no private image name, the read fails with the
not-found error and sets id, os and code to the empty string. -/
theorem os_ambiguous_fails (request : Request) (d : ResourceData) (result : List RawImage)
    (hp : d.private_image_name = "")
    (hr : request "GET" (imagesPath d.datacenter_id) = .ok result)
    (hid : d.id = "") (hc : d.code = "") (hos : d.os ≠ "")
    (htwo : 2 ≤ matchCount (buildImages result) "os" d.os) :
    (dataSourceImageRead request d).diags = diagErrorf (notFoundMessage (buildImages result)) ∧
    (dataSourceImageRead request d).d.id = "" ∧
    (dataSourceImageRead request d).d.identity = "" ∧
    (dataSourceImageRead request d).d.os = "" ∧
    (dataSourceImageRead request d).d.code = "" := by
  have hlen := getImageMatchesBy_length (buildImages result) "os" d.os hos
  have h0 : (getImageMatchesBy (buildImages result) "os" d.os).length ≠ 0 := by omega
  have h1 : (getImageMatchesBy (buildImages result) "os" d.os).length ≠ 1 := by omega
  unfold dataSourceImageRead
  simp only [hp, if_true, hr, hid, hc, getImageMatchesBy_empty, h0, h1, false_and, false_or,
    and_false, if_false, List.length_nil, Nat.zero_ne_one]
  simp [ResourceData.SetOs, ResourceData.SetCode, ResourceData.SetId]

/-- Witness of C8: `A` and `C` share os `ubuntu`, so os `ubuntu` alone fails and clears. -/
theorem os_ambiguous_fails_witness :
    2 ≤ matchCount (buildImages sharedOsCatalog) "os" "ubuntu" ∧
    (dataSourceImageRead sharedOsRequest (sampleInput "" "ubuntu" "" "")).diags
      = diagErrorf (notFoundMessage (buildImages sharedOsCatalog)) ∧
    (dataSourceImageRead sharedOsRequest (sampleInput "" "ubuntu" "" "")).d.id = "" ∧
    (dataSourceImageRead sharedOsRequest (sampleInput "" "ubuntu" "" "")).d.identity = "" ∧
    (dataSourceImageRead sharedOsRequest (sampleInput "" "ubuntu" "" "")).d.os = "" ∧
    (dataSourceImageRead sharedOsRequest (sampleInput "" "ubuntu" "" "")).d.code = "" :=
  ⟨by decide,
    os_ambiguous_fails sharedOsRequest (sampleInput "" "ubuntu" "" "") sharedOsCatalog
      rfl rfl rfl rfl (by decide) (by decide)⟩

/-! ## Failures (C9, C10) -/

/-- Claim C9: for every public lookup, whatever id, os and code are, when the request fails
the read returns that error, sets the stored id to the empty string and changes nothing else:
os and code stay as they were and the only effect besides is the one request. -/
theorem fetch_error_propagates (request : Request) (d : ResourceData) (err : String)
    (hp : d.private_image_name = "")
    (hr : request "GET" (imagesPath d.datacenter_id) = .error err) :
    dataSourceImageRead request d
      = ⟨diagFromErr err, d.SetId "", [("GET", imagesPath d.datacenter_id)]⟩ ∧
    (dataSourceImageRead request d).diags = [⟨err⟩] ∧
    (dataSourceImageRead request d).d.id = "" ∧
    (dataSourceImageRead request d).d.identity = "" := by
  have h : dataSourceImageRead request d
      = ⟨diagFromErr err, d.SetId "", [("GET", imagesPath d.datacenter_id)]⟩ := by
    unfold dataSourceImageRead
    simp only [hp, if_true, hr]
  rw [h]
  exact ⟨rfl, rfl, rfl, rfl⟩

/-- Witness of C9: a refused connection on a lookup that carries an id, an os and a code. -/
theorem fetch_error_propagates_witness :
    dataSourceImageRead failingRequest (sampleInput "A" "ubuntu" "u1" "")
      = ⟨diagFromErr "connection refused", (sampleInput "A" "ubuntu" "u1" "").SetId "",
          [("GET", imagesPath "dc1")]⟩ ∧
    (dataSourceImageRead failingRequest (sampleInput "A" "ubuntu" "u1" "")).diags
      = [⟨"connection refused"⟩] ∧
    (dataSourceImageRead failingRequest (sampleInput "A" "ubuntu" "u1" "")).d.id = "" ∧
    (dataSourceImageRead failingRequest (sampleInput "A" "ubuntu" "u1" "")).d.identity = "" :=
  fetch_error_propagates failingRequest (sampleInput "A" "ubuntu" "u1" "") "connection refused"
    rfl rfl

theorem set_keys (m : Images) (k : String) (v : StrMap) :
    (Images.set m k v).map Prod.fst
      = if k ∈ m.map Prod.fst then m.map Prod.fst else m.map Prod.fst ++ [k] := by
  induction m with
  | nil => simp [Images.set]
  | cons e rest ih =>
    obtain ⟨key, old⟩ := e
    by_cases hk : key = k
    · simp [Images.set, hk]
    · have hk2 : ¬ k = key := fun h => hk h.symm
      by_cases hin : k ∈ rest.map Prod.fst
      · simp only [Images.set, hk, if_false, List.map_cons, ih, hin, if_true, List.mem_cons,
          or_true]
      · simp only [Images.set, hk, if_false, List.map_cons, ih, hin, List.mem_cons, hk2,
          or_self, List.cons_append]

theorem set_keys_nodup (m : Images) (k : String) (v : StrMap)
    (h : (m.map Prod.fst).Nodup) : ((Images.set m k v).map Prod.fst).Nodup := by
  rw [set_keys]
  split
  · exact h
  · rename_i hin
    rw [List.nodup_append]
    refine ⟨h, List.nodup_singleton k, ?_⟩
    intro a ha hb
    rw [List.mem_singleton] at hb
    exact hin (hb ▸ ha)

/-- The catalog built from any response has pairwise distinct keys, as a Go map does. -/
theorem buildImages_keys_nodup (result : List RawImage) :
    ((buildImages result).map Prod.fst).Nodup := by
  induction result using List.reverseRecOn with
  | nil => simp [buildImages]
  | append_singleton rest image ih =>
    rw [buildImages_append]
    exact set_keys_nodup _ _ _ ih

theorem index_of_not_mem (m : Images) (k : String) (h : k ∉ m.map Prod.fst) :
    m.index k = ([], false) := by
  induction m with
  | nil => rfl
  | cons e rest ih =>
    obtain ⟨key, old⟩ := e
    simp only [List.map_cons, List.mem_cons, not_or] at h
    have hk : ¬ key = k := fun hh => h.1 hh.symm
    simp only [Images.index, hk, if_false]
    exact ih h.2

theorem index_of_mem (m : Images) (k : String) (v : StrMap)
    (hn : (m.map Prod.fst).Nodup) (h : (k, v) ∈ m) : m.index k = (v, true) := by
  induction m with
  | nil => simp at h
  | cons e rest ih =>
    obtain ⟨key, old⟩ := e
    simp only [List.map_cons, List.nodup_cons] at hn
    rcases List.mem_cons.mp h with heq | hrest
    · simp only [Prod.mk.injEq] at heq
      simp [Images.index, heq.1, heq.2]
    · have hk : ¬ key = k := by
        intro hh
        apply hn.1
        rw [hh]
        exact List.mem_map.mpr ⟨(k, v), hrest, rfl⟩
      simp only [Images.index, hk, if_false]
      exact ih hn.2 hrest

theorem index_snd_true_iff (m : Images) (k : String) :
    (m.index k).2 = true ↔ k ∈ m.map Prod.fst := by
  constructor
  · intro h
    by_contra hn
    rw [index_of_not_mem m k hn] at h
    simp at h
  · intro h
    induction m with
    | nil => simp at h
    | cons e rest ih =>
      obtain ⟨key, old⟩ := e
      by_cases hk : key = k
      · simp [Images.index, hk]
      · simp only [Images.index, hk, if_false]
        apply ih
        simp only [List.map_cons, List.mem_cons] at h
        rcases h with h | h
        · exact absurd h.symm hk
        · exact h

theorem index_fst_mem (m : Images) (k : String) (h : (m.index k).2 = true) :
    (k, (m.index k).1) ∈ m :=
  index_true_mem m k (m.index k).1 (by rw [← h])

theorem set_of_not_mem (m : Images) (k : String) (v : StrMap) (h : k ∉ m.map Prod.fst) :
    Images.set m k v = m ++ [(k, v)] := by
  induction m with
  | nil => rfl
  | cons e rest ih =>
    obtain ⟨key, old⟩ := e
    simp only [List.map_cons, List.mem_cons, not_or] at h
    have hk : ¬ key = k := fun hh => h.1 hh.symm
    simp only [Images.set, hk, if_false, List.cons_append, ih h.2]

/-- When the fetched ids are pairwise distinct, the catalog lists the fetched entries in order. -/
theorem buildImages_of_nodup (result : List RawImage) (h : (result.map RawImage.id).Nodup) :
    buildImages result
      = result.map (fun image =>
          (image.id, [("os", image.os), ("code", image.code), ("name", image.name)])) := by
  induction result using List.reverseRecOn with
  | nil => rfl
  | append_singleton rest image ih =>
    rw [List.map_append, List.nodup_append] at h
    have ih2 := ih h.1
    rw [buildImages_append, ih2, set_of_not_mem]
    · simp
    · intro hin
      rw [List.map_map] at hin
      have h1 : image.id ∈ rest.map RawImage.id := by simpa [Function.comp] using hin
      exact h.2.2 h1 (by simp)



/-! ## The candidate lists of `getImageMatchesBy` (C15) -/

theorem mem_getImageMatchesBy (images : Images) (attr value k : String) (hv : value ≠ "") :
    k ∈ getImageMatchesBy images attr value
      ↔ ∃ img, (k, img) ∈ images ∧ img.index attr = value := by
  rw [getImageMatchesBy_eq_filter images attr value hv]
  simp only [List.mem_map, List.mem_filter, decide_eq_true_eq]
  constructor
  · rintro ⟨⟨k2, img⟩, ⟨hmem, hattr⟩, hk⟩
    simp only at hk hattr
    subst hk
    exact ⟨img, hmem, hattr⟩
  · rintro ⟨img, hmem, hattr⟩
    exact ⟨(k, img), ⟨hmem, hattr⟩, rfl⟩

theorem mem_getImageMatchesBy_index (images : Images) (attr value k : String) (hv : value ≠ "")
    (hkeys : (images.map Prod.fst).Nodup) :
    k ∈ getImageMatchesBy images attr value
      ↔ ((images.index k).2 = true ∧ (images.index k).1.index attr = value) := by
  rw [mem_getImageMatchesBy images attr value k hv]
  constructor
  · rintro ⟨img, hmem, hattr⟩
    rw [index_of_mem images k img hkeys hmem]
    exact ⟨rfl, hattr⟩
  · rintro ⟨hkey, hattr⟩
    exact ⟨(images.index k).1, index_fst_mem images k hkey, hattr⟩

theorem getImageMatchesBy_nodup (images : Images) (attr value : String)
    (hkeys : (images.map Prod.fst).Nodup) : (getImageMatchesBy images attr value).Nodup := by
  by_cases hv : value = ""
  · simp [getImageMatchesBy, hv]
  · rw [getImageMatchesBy_eq_filter images attr value hv]
    exact List.Nodup.sublist (List.Sublist.map _ (List.filter_sublist _)) hkeys

/-- Claim C15: for every catalog (a map, so with pairwise distinct keys), every attribute name
and every value, `getImageMatchesBy` returns the empty list for the empty value; for a
non-empty value an id occurs in the returned list exactly when it is a key of the catalog whose
attribute equals the value, no id occurs more than once, and the length of the list is the
number of matching entries. -/
theorem getImageMatchesBy_spec (images : Images) (attr value : String)
    (hkeys : (images.map Prod.fst).Nodup) (hv : value ≠ "") :
    getImageMatchesBy images attr "" = [] ∧
    (∀ k, k ∈ getImageMatchesBy images attr value
      ↔ ((images.index k).2 = true ∧ (images.index k).1.index attr = value)) ∧
    (getImageMatchesBy images attr value).Nodup ∧
    (getImageMatchesBy images attr value).length = matchCount images attr value :=
  ⟨getImageMatchesBy_empty images attr,
    fun k => mem_getImageMatchesBy_index images attr value k hv hkeys,
    getImageMatchesBy_nodup images attr value hkeys,
    getImageMatchesBy_length images attr value hv⟩

/-- Witness of C15: the ids with os `ubuntu` in the catalog where `A` and `C` share it. -/
theorem getImageMatchesBy_spec_witness :
    getImageMatchesBy (buildImages sharedOsCatalog) "os" "ubuntu" = ["A", "C"] ∧
    getImageMatchesBy (buildImages sharedOsCatalog) "os" "" = [] ∧
    (∀ k, k ∈ getImageMatchesBy (buildImages sharedOsCatalog) "os" "ubuntu"
      ↔ (((buildImages sharedOsCatalog).index k).2 = true ∧
          ((buildImages sharedOsCatalog).index k).1.index "os" = "ubuntu")) ∧
    (getImageMatchesBy (buildImages sharedOsCatalog) "os" "ubuntu").Nodup ∧
    (getImageMatchesBy (buildImages sharedOsCatalog) "os" "ubuntu").length
      = matchCount (buildImages sharedOsCatalog) "os" "ubuntu" :=
  ⟨by decide,
    getImageMatchesBy_spec (buildImages sharedOsCatalog) "os" "ubuntu" (by decide) (by decide)⟩

/-! ## The listing of available images (C12) -/

theorem foldl_rows_eq (f : String × StrMap → String) (images : Images) (acc : List String) :
    images.foldl (fun rows entry => rows ++ [f entry]) acc = acc ++ images.map f := by
  induction images generalizing acc with
  | nil => simp
  | cons e rest ih => simp [List.foldl_cons, ih]

theorem padRight_length (width : Nat) (s : String) :
    (padRight width s).length = max width s.length := by
  simp only [padRight, String.length_append, String.length_mk, List.length_replicate]
  omega

/-- Claim C12: for every catalog the listing of `getAvailableImages` is the header row of the
column titles os, code, name followed by exactly one row for each catalog entry, each row
being the entry's double-quoted os left-justified to width 10, a space, its double-quoted code
left-justified to width 30, a space and its double-quoted name; the rows are joined by
newlines, there are `1 + |catalog|` of them and every catalog entry has its row. -/
theorem getAvailableImages_listing (images : Images) :
    getAvailableImages images = "\n".intercalate (listingRows images) ∧
    (listingRows images).length = 1 + images.length ∧
    (∀ entry ∈ images,
      padRight 10 (doubleQuoted (entry.2.index "os")) ++ " " ++
        padRight 30 (doubleQuoted (entry.2.index "code")) ++ " " ++
        doubleQuoted (entry.2.index "name") ∈ listingRows images) ∧
    (∀ (width : Nat) (s : String),
      padRight width s = s ++ String.mk (List.replicate (width - s.length) ' ') ∧
      (padRight width s).length = max width s.length) := by
  refine ⟨?_, ?_, ?_, fun width s => ⟨rfl, padRight_length width s⟩⟩
  · have hheader : formatRow "os" "code" "name"
        = "os         code                           name" := by decide
    simp only [getAvailableImages, foldl_rows_eq, hheader, List.nil_append,
      List.singleton_append]
    rfl
  · simp [listingRows, Nat.add_comm]
  · intro entry hentry
    exact List.mem_cons_of_mem _ (List.mem_map.mpr ⟨entry, hentry, rfl⟩)



/-! ## Lookups whose id is not in the catalog (C13, C16, C17) -/

/-- The read of a public lookup whose id is not a key of the catalog: only the second and the
third branch can fire, and their guards on the id hold. -/
theorem read_without_image (request : Request) (d : ResourceData) (result : List RawImage)
    (hp : d.private_image_name = "")
    (hr : request "GET" (imagesPath d.datacenter_id) = .ok result)
    (hno : ((buildImages result).index d.id).2 = false) :
    dataSourceImageRead request d
      = if (getImageMatchesBy (buildImages result) "os" d.os).length = 1 ∧
            ((getImageMatchesBy (buildImages result) "code" d.code).length = 0 ∨
              ((getImageMatchesBy (buildImages result) "code" d.code).length = 1 ∧
                (getImageMatchesBy (buildImages result) "code" d.code).getD 0 ""
                  = (getImageMatchesBy (buildImages result) "os" d.os).getD 0 "")) then
          ⟨[], ((d.SetId ((getImageMatchesBy (buildImages result) "os" d.os).getD 0 "")).SetCode
              (((buildImages result).index
                ((getImageMatchesBy (buildImages result) "os" d.os).getD 0 "")).1.index
                  "code")).SetOs d.os,
            [("GET", imagesPath d.datacenter_id)]⟩
        else if (getImageMatchesBy (buildImages result) "code" d.code).length = 1 then
          ⟨[], ((d.SetId ((getImageMatchesBy (buildImages result) "code" d.code).getD 0
              "")).SetCode d.code).SetOs
              (((buildImages result).index
                ((getImageMatchesBy (buildImages result) "code" d.code).getD 0 "")).1.index
                  "os"),
            [("GET", imagesPath d.datacenter_id)]⟩
        else
          ⟨diagErrorf (notFoundMessage (buildImages result)),
            ((d.SetId "").SetCode "").SetOs "", [("GET", imagesPath d.datacenter_id)]⟩ := by
  unfold dataSourceImageRead
  simp only [hp, if_true, hr, hno, Bool.false_eq_true, false_and, if_false, true_or, true_and,
    and_true]

/-- Claim C13: for every fetched catalog that has no entry keyed by the supplied id, with no
private image name, the read succeeds exactly when byOs is a singleton and byCode is empty or
the same singleton, or byCode is a singleton; in the first case the resolved id is the element
of byOs, otherwise it is the element of byCode; in every other case the read fails with the
not-found error. -/
theorem decision_without_id (request : Request) (d : ResourceData) (result : List RawImage)
    (hp : d.private_image_name = "")
    (hr : request "GET" (imagesPath d.datacenter_id) = .ok result)
    (hno : ((buildImages result).index d.id).2 = false) :
    ((dataSourceImageRead request d).diags = [] ↔
      ((∃ x, getImageMatchesBy (buildImages result) "os" d.os = [x] ∧
          (getImageMatchesBy (buildImages result) "code" d.code = [] ∨
            getImageMatchesBy (buildImages result) "code" d.code = [x])) ∨
        ∃ y, getImageMatchesBy (buildImages result) "code" d.code = [y])) ∧
    (∀ x, getImageMatchesBy (buildImages result) "os" d.os = [x] →
      (getImageMatchesBy (buildImages result) "code" d.code = [] ∨
        getImageMatchesBy (buildImages result) "code" d.code = [x]) →
      (dataSourceImageRead request d).diags = [] ∧ (dataSourceImageRead request d).d.id = x ∧
      (dataSourceImageRead request d).d.identity = x) ∧
    (∀ y, getImageMatchesBy (buildImages result) "code" d.code = [y] →
      ¬ (∃ x, getImageMatchesBy (buildImages result) "os" d.os = [x] ∧
          (getImageMatchesBy (buildImages result) "code" d.code = [] ∨
            getImageMatchesBy (buildImages result) "code" d.code = [x])) →
      (dataSourceImageRead request d).diags = [] ∧ (dataSourceImageRead request d).d.id = y ∧
      (dataSourceImageRead request d).d.identity = y) ∧
    (¬ ((∃ x, getImageMatchesBy (buildImages result) "os" d.os = [x] ∧
          (getImageMatchesBy (buildImages result) "code" d.code = [] ∨
            getImageMatchesBy (buildImages result) "code" d.code = [x])) ∨
        ∃ y, getImageMatchesBy (buildImages result) "code" d.code = [y]) →
      (dataSourceImageRead request d).diags
        = diagErrorf (notFoundMessage (buildImages result))) := by
  rw [read_without_image request d result hp hr hno]
  generalize getImageMatchesBy (buildImages result) "os" d.os = osIds
  generalize getImageMatchesBy (buildImages result) "code" d.code = codeIds
  have hB : (osIds.length = 1 ∧ (codeIds.length = 0 ∨
        (codeIds.length = 1 ∧ codeIds.getD 0 "" = osIds.getD 0 "")))
      ↔ ∃ x, osIds = [x] ∧ (codeIds = [] ∨ codeIds = [x]) := by
    constructor
    · rintro ⟨h1, h2⟩
      obtain ⟨x, hx⟩ := List.length_eq_one.mp h1
      refine ⟨x, hx, ?_⟩
      rcases h2 with h2 | ⟨h2, h3⟩
      · exact Or.inl (List.length_eq_zero.mp h2)
      · obtain ⟨y, hy⟩ := List.length_eq_one.mp h2
        subst hx hy
        simp at h3
        exact Or.inr (by rw [h3])
    · rintro ⟨x, hx, h2 | h2⟩
      · subst hx h2
        simp
      · subst hx h2
        simp
  have hC : codeIds.length = 1 ↔ ∃ y, codeIds = [y] := List.length_eq_one
  refine ⟨?_, ?_, ?_, ?_⟩
  · by_cases h1 : ∃ x, osIds = [x] ∧ (codeIds = [] ∨ codeIds = [x])
    · rw [if_pos (hB.mpr h1)]
      simp [h1]
    · rw [if_neg (fun h => h1 (hB.mp h))]
      by_cases h2 : ∃ y, codeIds = [y]
      · rw [if_pos (hC.mpr h2)]
        simp [h2]
      · rw [if_neg (fun h => h2 (hC.mp h))]
        simp [h1, h2, diagErrorf]
  · intro x hx h2
    rw [if_pos (hB.mpr ⟨x, hx, h2⟩)]
    subst hx
    exact ⟨rfl, rfl, rfl⟩
  · intro y hy h1
    rw [if_neg (fun h => h1 (hB.mp h)), if_pos (hC.mpr ⟨y, hy⟩)]
    subst hy
    exact ⟨rfl, rfl, rfl⟩
  · intro h
    rw [not_or] at h
    rw [if_neg (fun hh => h.1 (hB.mp hh)), if_neg (fun hh => h.2 (hC.mp hh))]

/-- Witness of C13 on the sample catalog with the id `zz`, which is not a key: os `debian`
and code `d1` both single out `B`. -/
theorem decision_without_id_witness :
    ((buildImages sampleCatalog).index "zz").2 = false ∧
    getImageMatchesBy (buildImages sampleCatalog) "os" "debian" = ["B"] ∧
    getImageMatchesBy (buildImages sampleCatalog) "code" "d1" = ["B"] ∧
    (dataSourceImageRead sampleRequest (sampleInput "zz" "debian" "d1" "")).diags = [] ∧
    (dataSourceImageRead sampleRequest (sampleInput "zz" "debian" "d1" "")).d.id = "B" ∧
    (dataSourceImageRead sampleRequest (sampleInput "zz" "debian" "d1" "")).d.identity = "B" :=
  ⟨by decide, by decide, by decide,
    (decision_without_id sampleRequest (sampleInput "zz" "debian" "d1" "") sampleCatalog
      rfl rfl (by decide)).2.1 "B" (by decide) (Or.inr (by decide))⟩

/-- Claim C16: for every fetched catalog, every os and code and every two ids neither of which
is a key of the catalog (the empty id included), the read gives the same result for both ids:
the same diagnostics and the same written id, os and code. -/
theorem absent_id_ignored (request : Request) (d : ResourceData) (result : List RawImage)
    (id2 : String)
    (hp : d.private_image_name = "")
    (hr : request "GET" (imagesPath d.datacenter_id) = .ok result)
    (h1 : ((buildImages result).index d.id).2 = false)
    (h2 : ((buildImages result).index id2).2 = false) :
    dataSourceImageRead request { d with id := id2 } = dataSourceImageRead request d := by
  rw [read_without_image request d result hp hr h1,
    read_without_image request { d with id := id2 } result hp hr h2]
  rfl

/-- Witness of C16 on the sample catalog: the unknown id `zz` and the empty id, with os
`ubuntu`, both resolve to `A`. -/
theorem absent_id_ignored_witness :
    ((buildImages sampleCatalog).index "zz").2 = false ∧
    ((buildImages sampleCatalog).index "").2 = false ∧
    dataSourceImageRead sampleRequest (sampleInput "" "ubuntu" "" "")
      = dataSourceImageRead sampleRequest (sampleInput "zz" "ubuntu" "" "") ∧
    (dataSourceImageRead sampleRequest (sampleInput "zz" "ubuntu" "" "")).d.id = "A" :=
  ⟨by decide, by decide,
    absent_id_ignored sampleRequest (sampleInput "zz" "ubuntu" "" "") sampleCatalog ""
      rfl rfl (by decide) (by decide),
    by decide⟩

theorem getImageMatchesBy_ne_nil_value (images : Images) (attr value : String)
    (h : getImageMatchesBy images attr value ≠ []) : value ≠ "" := by
  intro hv
  apply h
  rw [hv]
  exact getImageMatchesBy_empty images attr

/-- The sole element of a candidate list is a key of the catalog whose attribute is the
requested value. -/
theorem singleton_match_entry (images : Images) (attr value : String)
    (hkeys : (images.map Prod.fst).Nodup)
    (h : (getImageMatchesBy images attr value).length = 1) :
    value ≠ "" ∧
    (images.index ((getImageMatchesBy images attr value).getD 0 "")).2 = true ∧
    (images.index ((getImageMatchesBy images attr value).getD 0 "")).1.index attr = value := by
  obtain ⟨x, hx⟩ := List.length_eq_one.mp h
  have hv : value ≠ "" := getImageMatchesBy_ne_nil_value images attr value (by simp [hx])
  have hmem : x ∈ getImageMatchesBy images attr value := by simp [hx]
  rw [hx]
  exact ⟨hv, (mem_getImageMatchesBy_index images attr value x hv hkeys).mp hmem⟩

/-- Claim C17: for every fetched catalog and every public lookup whose id is not a key of the
catalog, whenever the read succeeds the written id, which is also the identity, is a key of
the catalog and the written os and code are the os and code stored for that key. -/
theorem resolved_entry_is_real (request : Request) (d : ResourceData) (result : List RawImage)
    (hp : d.private_image_name = "")
    (hr : request "GET" (imagesPath d.datacenter_id) = .ok result)
    (hno : ((buildImages result).index d.id).2 = false)
    (hok : (dataSourceImageRead request d).diags = []) :
    (dataSourceImageRead request d).d.identity = (dataSourceImageRead request d).d.id ∧
    ((buildImages result).index (dataSourceImageRead request d).d.id).2 = true ∧
    (dataSourceImageRead request d).d.os
      = ((buildImages result).index (dataSourceImageRead request d).d.id).1.index "os" ∧
    (dataSourceImageRead request d).d.code
      = ((buildImages result).index (dataSourceImageRead request d).d.id).1.index "code" := by
  have hkeys := buildImages_keys_nodup result
  rw [read_without_image request d result hp hr hno] at hok ⊢
  split_ifs at hok ⊢ with hB hC
  · obtain ⟨_, hkey, hattr⟩ := singleton_match_entry (buildImages result) "os" d.os hkeys hB.1
    exact ⟨rfl, hkey, hattr.symm, rfl⟩
  · obtain ⟨_, hkey, hattr⟩ := singleton_match_entry (buildImages result) "code" d.code hkeys hC
    exact ⟨rfl, hkey, rfl, hattr.symm⟩
  · simp [diagErrorf] at hok

/-- Witness of C17 on the sample catalog: code `d1` alone resolves to `B`, whose stored os and
code are `debian` and `d1`. -/
theorem resolved_entry_is_real_witness :
    (dataSourceImageRead sampleRequest (sampleInput "" "" "d1" "")).d.id = "B" ∧
    (dataSourceImageRead sampleRequest (sampleInput "" "" "d1" "")).d.identity
      = (dataSourceImageRead sampleRequest (sampleInput "" "" "d1" "")).d.id ∧
    ((buildImages sampleCatalog).index
      (dataSourceImageRead sampleRequest (sampleInput "" "" "d1" "")).d.id).2 = true ∧
    (dataSourceImageRead sampleRequest (sampleInput "" "" "d1" "")).d.os
      = ((buildImages sampleCatalog).index
          (dataSourceImageRead sampleRequest (sampleInput "" "" "d1" "")).d.id).1.index "os" ∧
    (dataSourceImageRead sampleRequest (sampleInput "" "" "d1" "")).d.code
      = ((buildImages sampleCatalog).index
          (dataSourceImageRead sampleRequest (sampleInput "" "" "d1" "")).d.id).1.index "code" :=
  ⟨by decide,
    resolved_entry_is_real sampleRequest (sampleInput "" "" "d1" "") sampleCatalog
      rfl rfl (by decide) (by decide)⟩



/-! ## An id confirmed by the filters (C14) -/

/-- Claim C14: for every fetched catalog and every non-empty id `A` that is a key of it, when
at least one of os and code is non-empty and each non-empty one is matched by exactly the entry
`A` (byOs is `[A]` when os is set, byCode is `[A]` when code is set), the read returns no
error, sets the identity to `A` and writes the os and code stored for `A`. -/
theorem id_with_matching_filters (request : Request) (d : ResourceData)
    (result : List RawImage) (img : StrMap)
    (hp : d.private_image_name = "")
    (hr : request "GET" (imagesPath d.datacenter_id) = .ok result)
    (hA : (buildImages result).index d.id = (img, true)) (hne : d.id ≠ "")
    (hsome : d.os ≠ "" ∨ d.code ≠ "")
    (hos : d.os ≠ "" → getImageMatchesBy (buildImages result) "os" d.os = [d.id])
    (hcode : d.code ≠ "" → getImageMatchesBy (buildImages result) "code" d.code = [d.id]) :
    (dataSourceImageRead request d).diags = [] ∧
    (dataSourceImageRead request d).d.id = d.id ∧
    (dataSourceImageRead request d).d.identity = d.id ∧
    (dataSourceImageRead request d).d.os = img.index "os" ∧
    (dataSourceImageRead request d).d.code = img.index "code" := by
  have hkeys := buildImages_keys_nodup result
  have himgid : img.index "id" = "" := by
    have h := buildImages_index_id result d.id
    rwa [hA] at h
  have hne2 : ¬ d.id = "" := hne
  have hstored : ∀ attr value : String, value ≠ "" →
      getImageMatchesBy (buildImages result) attr value = [d.id] → img.index attr = value := by
    intro attr value hv hlist
    have hmem : d.id ∈ getImageMatchesBy (buildImages result) attr value := by simp [hlist]
    have h := (mem_getImageMatchesBy_index (buildImages result) attr value d.id hv hkeys).mp hmem
    rw [hA] at h
    exact h.2
  unfold dataSourceImageRead
  simp only [hp, if_true, hr, hA, himgid]
  by_cases ho : d.os = ""
  · have hc : d.code ≠ "" := by
      rcases hsome with h | h
      · exact absurd ho h
      · exact h
    have hcs := hstored "code" d.code hc (hcode hc)
    simp [ho, getImageMatchesBy_empty, hcode hc, hne2, hcs, ResourceData.SetOs,
      ResourceData.SetCode, ResourceData.SetId, hA]
  · have hos2 := hstored "os" d.os ho (hos ho)
    by_cases hc : d.code = ""
    · simp [hc, getImageMatchesBy_empty, hos ho, hne2, hos2, ResourceData.SetOs,
        ResourceData.SetCode, ResourceData.SetId, hA]
    · have hcs := hstored "code" d.code hc (hcode hc)
      simp [hos ho, hcode hc, hne2, hos2, hcs, ResourceData.SetOs,
        ResourceData.SetCode, ResourceData.SetId, hA]

/-- Witness of C14 on the sample catalog: id `A` with its own os `ubuntu` and code `u1`. -/
theorem id_with_matching_filters_witness :
    getImageMatchesBy (buildImages sampleCatalog) "os" "ubuntu" = ["A"] ∧
    getImageMatchesBy (buildImages sampleCatalog) "code" "u1" = ["A"] ∧
    (dataSourceImageRead sampleRequest (sampleInput "A" "ubuntu" "u1" "")).diags = [] ∧
    (dataSourceImageRead sampleRequest (sampleInput "A" "ubuntu" "u1" "")).d.id = "A" ∧
    (dataSourceImageRead sampleRequest (sampleInput "A" "ubuntu" "u1" "")).d.identity = "A" ∧
    (dataSourceImageRead sampleRequest (sampleInput "A" "ubuntu" "u1" "")).d.os = "ubuntu" ∧
    (dataSourceImageRead sampleRequest (sampleInput "A" "ubuntu" "u1" "")).d.code = "u1" :=
  ⟨by decide, by decide,
    id_with_matching_filters sampleRequest (sampleInput "A" "ubuntu" "u1" "") sampleCatalog
      [("os", "ubuntu"), ("code", "u1"), ("name", "Ubuntu Server")]
      rfl rfl (by decide) (by decide) (Or.inl (by decide)) (fun _ => by decide)
      (fun _ => by decide)⟩



/-! ## The order of the fetched catalog (C11) -/

theorem index_perm (m1 m2 : Images) (hperm : m1.Perm m2) (hkeys : (m1.map Prod.fst).Nodup)
    (k : String) : m2.index k = m1.index k := by
  have hkeys2 : (m2.map Prod.fst).Nodup := (hperm.map Prod.fst).nodup_iff.mp hkeys
  by_cases hk : k ∈ m1.map Prod.fst
  · obtain ⟨⟨k2, v⟩, hmem, hk2⟩ := List.mem_map.mp hk
    simp only at hk2
    subst hk2
    rw [index_of_mem m1 k2 v hkeys hmem, index_of_mem m2 k2 v hkeys2 (hperm.mem_iff.mp hmem)]
  · have hk2 : k ∉ m2.map Prod.fst := fun h => hk ((hperm.map Prod.fst).mem_iff.mpr h)
    rw [index_of_not_mem m1 k hk, index_of_not_mem m2 k hk2]

theorem getImageMatchesBy_perm (m1 m2 : Images) (hperm : m1.Perm m2) (attr value : String) :
    (getImageMatchesBy m1 attr value).Perm (getImageMatchesBy m2 attr value) := by
  by_cases hv : value = ""
  · simp [getImageMatchesBy, hv]
  · rw [getImageMatchesBy_eq_filter m1 attr value hv, getImageMatchesBy_eq_filter m2 attr value hv]
    exact (hperm.filter _).map _

theorem perm_length_one (l1 l2 : List String) (hperm : l1.Perm l2) :
    l2.length = l1.length ∧ (l1.length = 1 → l2 = l1) := by
  refine ⟨hperm.length_eq.symm, fun h => ?_⟩
  obtain ⟨x, hx⟩ := List.length_eq_one.mp h
  subst hx
  exact List.perm_singleton.mp hperm.symm

theorem buildImages_perm (l1 l2 : List RawImage) (hnodup : (l1.map RawImage.id).Nodup)
    (hperm : l1.Perm l2) : (buildImages l1).Perm (buildImages l2) := by
  have hnodup2 : (l2.map RawImage.id).Nodup := (hperm.map RawImage.id).nodup_iff.mp hnodup
  rw [buildImages_of_nodup l1 hnodup, buildImages_of_nodup l2 hnodup2]
  exact hperm.map _

/-- Claim C11: for every fetched list with pairwise distinct ids, every permutation of it and
every selection input, the read has the same outcome on both: the same resource data after the
call (the same written id, os and code) and the same kind of result, success, conflicting
inputs or not found; only the order of the rows in the not-found listing can differ. -/
theorem order_irrelevant (request1 request2 : Request) (d : ResourceData)
    (l1 l2 : List RawImage)
    (hr1 : request1 "GET" (imagesPath d.datacenter_id) = .ok l1)
    (hr2 : request2 "GET" (imagesPath d.datacenter_id) = .ok l2)
    (hnodup : (l1.map RawImage.id).Nodup) (hperm : l1.Perm l2) :
    (dataSourceImageRead request1 d).d = (dataSourceImageRead request2 d).d ∧
    (((dataSourceImageRead request1 d).diags = [] ∧
        (dataSourceImageRead request2 d).diags = []) ∨
      ((dataSourceImageRead request1 d).diags = diagErrorf conflictMessage ∧
        (dataSourceImageRead request2 d).diags = diagErrorf conflictMessage) ∨
      ((dataSourceImageRead request1 d).diags = diagErrorf (notFoundMessage (buildImages l1)) ∧
        (dataSourceImageRead request2 d).diags
          = diagErrorf (notFoundMessage (buildImages l2)))) := by
  have hp12 := buildImages_perm l1 l2 hnodup hperm
  have hidx := index_perm (buildImages l1) (buildImages l2) hp12 (buildImages_keys_nodup l1)
  obtain ⟨hol, ho1⟩ := perm_length_one _ _ (getImageMatchesBy_perm _ _ hp12 "os" d.os)
  obtain ⟨hcl, hc1⟩ := perm_length_one _ _ (getImageMatchesBy_perm _ _ hp12 "code" d.code)
  unfold dataSourceImageRead
  by_cases hp : d.private_image_name = ""
  · simp only [hp, if_true, hr1, hr2, hidx]
    generalize hmsg1 : notFoundMessage (buildImages l1) = msg1
    generalize hmsg2 : notFoundMessage (buildImages l2) = msg2
    generalize getImageMatchesBy (buildImages l1) "os" d.os = o1 at hol ho1 ⊢
    generalize getImageMatchesBy (buildImages l2) "os" d.os = o2 at hol ho1 ⊢
    generalize getImageMatchesBy (buildImages l1) "code" d.code = c1 at hcl hc1 ⊢
    generalize getImageMatchesBy (buildImages l2) "code" d.code = c2 at hcl hc1 ⊢
    by_cases ho : o1.length = 1
    · have := ho1 ho
      subst this
      by_cases hc : c1.length = 1
      · have := hc1 hc
        subst this
        split_ifs <;> simp
      · have hc2 : ¬ c2.length = 1 := by rw [hcl]; exact hc
        simp only [hc, hc2, hcl, false_and, or_false, if_false]
        split_ifs <;> simp
    · have ho2 : ¬ o2.length = 1 := by rw [hol]; exact ho
      by_cases hc : c1.length = 1
      · have := hc1 hc
        subst this
        simp only [ho, ho2, hol, false_and, or_false, if_false]
        split_ifs <;> simp
      · have hc2 : ¬ c2.length = 1 := by rw [hcl]; exact hc
        simp only [ho, ho2, hc, hc2, hol, hcl, false_and, or_false, if_false]
        split_ifs <;> simp
  · simp only [hp, if_false]
    split_ifs <;> simp [diagErrorf]

/-- Witness of C11: the sample catalog fetched in both orders, for os `ubuntu` alone. -/
theorem order_irrelevant_witness :
    (sampleCatalog.map RawImage.id).Nodup ∧ sampleCatalog.Perm swappedCatalog ∧
    buildImages sampleCatalog ≠ buildImages swappedCatalog ∧
    (dataSourceImageRead sampleRequest (sampleInput "" "ubuntu" "" "")).d
      = (dataSourceImageRead swappedRequest (sampleInput "" "ubuntu" "" "")).d ∧
    (((dataSourceImageRead sampleRequest (sampleInput "" "ubuntu" "" "")).diags = [] ∧
        (dataSourceImageRead swappedRequest (sampleInput "" "ubuntu" "" "")).diags = []) ∨
      ((dataSourceImageRead sampleRequest (sampleInput "" "ubuntu" "" "")).diags
          = diagErrorf conflictMessage ∧
        (dataSourceImageRead swappedRequest (sampleInput "" "ubuntu" "" "")).diags
          = diagErrorf conflictMessage) ∨
      ((dataSourceImageRead sampleRequest (sampleInput "" "ubuntu" "" "")).diags
          = diagErrorf (notFoundMessage (buildImages sampleCatalog)) ∧
        (dataSourceImageRead swappedRequest (sampleInput "" "ubuntu" "" "")).diags
          = diagErrorf (notFoundMessage (buildImages swappedCatalog)))) :=
  ⟨by decide, List.Perm.swap _ _ _, by decide,
    order_irrelevant sampleRequest swappedRequest (sampleInput "" "ubuntu" "" "")
      sampleCatalog swappedCatalog rfl rfl (by decide) (List.Perm.swap _ _ _)⟩

end Cloud
